import Mathlib

/-!
Verification development for `main.go` (EC2 bootstrap script)

The script performs a fixed sequence of calls against collaborators that are
not part of the repository (the AWS SDK and the operating system).  The
embedding below keeps the four Go functions `main`, `createEC2`,
`createKeyPair` and `describeImages` as Lean functions over

* an explicit world state `σ`, threaded through every call,
* an environment `Env σ` giving the reply of each collaborator call as a
  function of its arguments and the current world state, and
* a trace: the list of collaborator calls issued, each with its reply.

Go values of type `error` are observed by the script only through
`err.Error()` (in `strings.Contains` and under the `%s` verb), hence an error
is represented by its message.  Pointer-typed SDK fields (`*string`,
`*int32`) are `Option`s, and dereferencing `nil` or indexing past the end of
a slice is a run-time panic, kept as an explicit outcome.
-/

namespace GoAwsEc2

/-! ## Go runtime pieces -/

/-- Substring test on character lists: `sub` occurs in the list as a
contiguous block. -/
def hasInfix (sub : List Char) : List Char → Bool
  | [] => sub.isEmpty
  | c :: t => sub.isPrefixOf (c :: t) || hasInfix sub t

/-- Go's `strings.Contains(s, substr)`.  Go compares bytes and Lean compares
characters; for well-formed UTF-8 text the two tests agree. -/
def strings.Contains (s substr : String) : Bool :=
  hasInfix substr.data s.data

/-- The two run-time panics the script can raise. -/
inductive Panic
  | nilDereference
  | indexOutOfRange
  deriving DecidableEq, Repr

/-- What a Go function of type `(string, error)` produces: a value with a
`nil` error, the zero value with a non-`nil` error (kept as its message), or
a panic that unwinds the goroutine. -/
inductive Outcome (α : Type)
  | ok (v : α)
  | err (msg : String)
  | crash (p : Panic)
  deriving DecidableEq, Repr

/-- What an SDK operation of type `(*Output, error)` returns: a non-`nil`
output with a `nil` error, or a `nil` output with a non-`nil` error (the
operations of the SDK client end in `return nil, err` or `return out, nil`). -/
inductive Reply (α : Type)
  | out (v : α)
  | fail (msg : String)
  deriving DecidableEq, Repr

/-- The output pointer of a reply (`nil` on failure). -/
def Reply.out? {α : Type} : Reply α → Option α
  | .out v => some v
  | .fail _ => none

/-- The error of a reply (`nil` on success). -/
def Reply.err? {α : Type} : Reply α → Option String
  | .out _ => none
  | .fail e => some e

/-! ## SDK request and response records (only the fields the script touches) -/

structure DescribeKeyPairsInput where
  KeyNames : List String
  deriving DecidableEq, Repr

structure KeyPairInfo where
  KeyName : Option String
  deriving DecidableEq, Repr

structure DescribeKeyPairsOutput where
  KeyPairs : List KeyPairInfo
  deriving DecidableEq, Repr

structure CreateKeyPairInput where
  KeyName : Option String
  deriving DecidableEq, Repr

structure CreateKeyPairOutput where
  KeyName : Option String
  KeyMaterial : Option String
  deriving DecidableEq, Repr

structure Filter where
  Name : Option String
  Values : List String
  deriving DecidableEq, Repr

structure DescribeImagesInput where
  Filters : List Filter
  Owners : List String
  deriving DecidableEq, Repr

structure Image where
  ImageId : Option String
  deriving DecidableEq, Repr

structure DescribeImagesOutput where
  Images : List Image
  deriving DecidableEq, Repr

structure RunInstancesInput where
  ImageId : Option String
  KeyName : Option String
  InstanceType : String
  MinCount : Option Int
  MaxCount : Option Int
  deriving DecidableEq, Repr

structure Instance where
  InstanceId : Option String
  deriving DecidableEq, Repr

structure RunInstancesOutput where
  Instances : List Instance
  deriving DecidableEq, Repr

/-- The SDK constant `types.InstanceTypeT2Micro`. -/
def InstanceTypeT2Micro : String := "t2.micro"

/-! ## Collaborators and traces -/

/-- The collaborators of the script.  Every call receives its arguments and
the current world state and yields its reply and the next world state.
`LoadDefaultConfig` and `WriteFile` return only an error (`none` is `nil`);
the client handle built from a loaded configuration lives in the world
state. -/
structure Env (σ : Type) where
  LoadDefaultConfig : String → σ → Option String × σ
  DescribeKeyPairs : DescribeKeyPairsInput → σ → Reply DescribeKeyPairsOutput × σ
  CreateKeyPair : CreateKeyPairInput → σ → Reply CreateKeyPairOutput × σ
  WriteFile : String → String → Nat → σ → Option String × σ
  DescribeImages : DescribeImagesInput → σ → Reply DescribeImagesOutput × σ
  RunInstances : RunInstancesInput → σ → Reply RunInstancesOutput × σ

/-- One collaborator call, with its arguments and what it returned. -/
inductive Event
  | loadConfig (profile : String) (err : Option String)
  | describeKeyPairs (input : DescribeKeyPairsInput) (reply : Reply DescribeKeyPairsOutput)
  | createKeyPair (input : CreateKeyPairInput) (reply : Reply CreateKeyPairOutput)
  | writeFile (name : String) (data : String) (perm : Nat) (err : Option String)
  | describeImages (input : DescribeImagesInput) (reply : Reply DescribeImagesOutput)
  | runInstances (input : RunInstancesInput) (reply : Reply RunInstancesOutput)
  deriving DecidableEq, Repr

/-- The result of running a function of the script: what it returned, the
world state it left, and the calls it issued, oldest first. -/
structure Run (σ : Type) (α : Type) where
  result : Outcome α
  state : σ
  trace : List Event

/-! ## The script -/

/-- The Go function `createKeyPair(name, ctx, client)`. -/
def createKeyPair {σ : Type} (env : Env σ) (name : String) (s : σ) : Run σ String :=
  let input : DescribeKeyPairsInput := { KeyNames := [name] }
  let r := env.DescribeKeyPairs input s
  let existKeyPairs := r.1.out?
  let err := r.1.err?
  let t1 := [Event.describeKeyPairs input r.1]
  -- KeyPair can exist
  if (match err with
      | some e => !strings.Contains e "InvalidKeyPair.NotFound"
      | none => false) then
    { result := .err ("CreateKeyPair error: " ++ err.getD ""), state := r.2, trace := t1 }
  else if (match existKeyPairs with
           | none => true
           | some o => o.KeyPairs.length == 0) then
    let cin : CreateKeyPairInput := { KeyName := some name }
    let c := env.CreateKeyPair cin r.2
    let t2 := t1 ++ [Event.createKeyPair cin c.1]
    match c.1 with
    | .fail e => { result := .err ("CreateKeyPair error: " ++ e), state := c.2, trace := t2 }
    | .out output =>
      match output.KeyMaterial with
      | none => { result := .crash .nilDereference, state := c.2, trace := t2 }
      | some material =>
        let w := env.WriteFile "go-aws-ec2.pem" material 0o600 c.2
        let t3 := t2 ++ [Event.writeFile "go-aws-ec2.pem" material 0o600 w.1]
        match w.1 with
        | some e => { result := .err ("WriteFile error: " ++ e), state := w.2, trace := t3 }
        | none =>
          match output.KeyName with
          | none => { result := .crash .nilDereference, state := w.2, trace := t3 }
          | some n => { result := .ok n, state := w.2, trace := t3 }
  else
    match existKeyPairs with
    | none => { result := .crash .nilDereference, state := r.2, trace := t1 }
    | some o =>
      match o.KeyPairs[0]? with
      | none => { result := .crash .indexOutOfRange, state := r.2, trace := t1 }
      | some kp =>
        match kp.KeyName with
        | none => { result := .crash .nilDereference, state := r.2, trace := t1 }
        | some n => { result := .ok n, state := r.2, trace := t1 }

/-- The request built by `describeImages`. -/
def describeImagesInput : DescribeImagesInput :=
  { Filters :=
      [ { Name := some "name",
          Values := ["ubuntu/images/hvm-ssd/ubuntu-focal-20.04-amd64-server-*"] },
        { Name := some "virtualization-type",
          Values := ["hvm"] } ],
    Owners := ["099720109477"] }

/-- The Go function `describeImages(ctx, client)`. -/
def describeImages {σ : Type} (env : Env σ) (s : σ) : Run σ String :=
  let r := env.DescribeImages describeImagesInput s
  let t := [Event.describeImages describeImagesInput r.1]
  match r.1 with
  | .fail e => { result := .err ("DescribeImages error: " ++ e), state := r.2, trace := t }
  | .out imageOutput =>
    if imageOutput.Images.length == 0 then
      { result := .err "imageOutput.Images is of 0 length", state := r.2, trace := t }
    else
      match imageOutput.Images[0]? with
      | none => { result := .crash .indexOutOfRange, state := r.2, trace := t }
      | some img =>
        match img.ImageId with
        | none => { result := .crash .nilDereference, state := r.2, trace := t }
        | some id => { result := .ok id, state := r.2, trace := t }

/-- The request `createEC2` sends to `RunInstances`. -/
def runInstancesInput (imageId keyPairName : String) : RunInstancesInput :=
  { ImageId := some imageId,
    KeyName := some keyPairName,
    InstanceType := InstanceTypeT2Micro,
    MinCount := some 1,
    MaxCount := some 1 }

/-- The Go function `createEC2(ctx, profile)`. -/
def createEC2 {σ : Type} (env : Env σ) (profile : String) (s : σ) : Run σ String :=
  let l := env.LoadDefaultConfig profile s
  let t0 := [Event.loadConfig profile l.1]
  match l.1 with
  | some e => { result := .err ("unable to load SDK config, " ++ e), state := l.2, trace := t0 }
  | none =>
    let k := createKeyPair env "go-aws-demo" l.2
    match k.result with
    | .err e => { result := .err e, state := k.state, trace := t0 ++ k.trace }
    | .crash p => { result := .crash p, state := k.state, trace := t0 ++ k.trace }
    | .ok keyPairName =>
      let d := describeImages env k.state
      match d.result with
      | .err e => { result := .err e, state := d.state, trace := t0 ++ k.trace ++ d.trace }
      | .crash p => { result := .crash p, state := d.state, trace := t0 ++ k.trace ++ d.trace }
      | .ok imageId =>
        let rin := runInstancesInput imageId keyPairName
        let i := env.RunInstances rin d.state
        let t := t0 ++ k.trace ++ d.trace ++ [Event.runInstances rin i.1]
        match i.1 with
        | .fail e => { result := .err ("RunInstances error: " ++ e), state := i.2, trace := t }
        | .out instance_ =>
          if instance_.Instances.length == 0 then
            { result := .err "instance.Instances is of 0 length", state := i.2, trace := t }
          else
            match instance_.Instances[0]? with
            | none => { result := .crash .indexOutOfRange, state := i.2, trace := t }
            | some inst =>
              match inst.InstanceId with
              | none => { result := .crash .nilDereference, state := i.2, trace := t }
              | some id => { result := .ok id, state := i.2, trace := t }

/-- How the process of `main` ends: its exit code, what it printed on
standard output, the world state and the calls issued. -/
structure Exit (σ : Type) where
  code : Nat
  stdout : String
  state : σ
  trace : List Event

/-- The Go function `main()`.  A panic that reaches the top of the goroutine
ends the process with exit code 2 and prints nothing on standard output. -/
def main {σ : Type} (env : Env σ) (s : σ) : Exit σ :=
  let profile := "go-iam"
  let r := createEC2 env profile s
  match r.result with
  | .err e => { code := 1, stdout := "createEC2 error: " ++ e, state := r.state, trace := r.trace }
  | .crash _ => { code := 2, stdout := "", state := r.state, trace := r.trace }
  | .ok instanceId =>
    { code := 0, stdout := "Instance id: " ++ instanceId, state := r.state, trace := r.trace }

/-! ## Reading traces -/

/-- The `CreateKeyPair` requests of a trace, in order. -/
def createCalls : List Event → List CreateKeyPairInput
  | [] => []
  | .createKeyPair input _ :: t => input :: createCalls t
  | _ :: t => createCalls t

/-- The `os.WriteFile` calls of a trace, in order: file name, data, mode. -/
def writeCalls : List Event → List (String × String × Nat)
  | [] => []
  | .writeFile name data perm _ :: t => (name, data, perm) :: writeCalls t
  | _ :: t => writeCalls t

/-- The `RunInstances` requests of a trace, in order. -/
def launchCalls : List Event → List RunInstancesInput
  | [] => []
  | .runInstances input _ :: t => input :: launchCalls t
  | _ :: t => launchCalls t

/-- The calls `createKeyPair` may issue: key-pair lookup, key-pair creation
and the key-file write. -/
def Event.isKeyPairStep : Event → Bool
  | .describeKeyPairs _ _ => true
  | .createKeyPair _ _ => true
  | .writeFile _ _ _ _ => true
  | _ => false

/-! ## A concrete world, used to run the script on examples -/

/-- A small simulated account and machine. -/
structure World where
  profiles : List String
  keyPairs : List String
  images : List Image
  launched : List Instance
  files : List (String × String × Nat)
  deriving DecidableEq, Repr

/-- Injected failures: a field that is set makes the corresponding call fail
with the given message. -/
structure Faults where
  lookup : Option String
  create : Option String
  disk : Option String
  image : Option String
  launch : Option String
  deriving DecidableEq, Repr

/-- No injected failure. -/
def noFaults : Faults :=
  { lookup := none, create := none, disk := none, image := none, launch := none }

/-- The collaborators over `World`: looking up an absent key pair fails with
`InvalidKeyPair.NotFound`, creating a key pair adds its name to the account,
the image query returns the catalogue `images`, a launch returns the records
`launched`, and a file write is recorded in `files`. -/
def simEnv (f : Faults) : Env World where
  LoadDefaultConfig := fun profile w =>
    if profile ∈ w.profiles then (none, w)
    else (some ("failed to get shared config profile, " ++ profile), w)
  DescribeKeyPairs := fun input w =>
    match f.lookup with
    | some e => (.fail e, w)
    | none =>
      if input.KeyNames.all (fun n => decide (n ∈ w.keyPairs)) then
        (.out { KeyPairs := input.KeyNames.map (fun n => { KeyName := some n }) }, w)
      else
        (.fail "api error InvalidKeyPair.NotFound: The key pair does not exist", w)
  CreateKeyPair := fun input w =>
    match f.create with
    | some e => (.fail e, w)
    | none =>
      match input.KeyName with
      | none => (.fail "api error MissingParameter", w)
      | some n =>
        if n ∈ w.keyPairs then (.fail "api error InvalidKeyPair.Duplicate", w)
        else (.out { KeyName := some n, KeyMaterial := some ("PRIVATE KEY " ++ n) },
              { w with keyPairs := n :: w.keyPairs })
  WriteFile := fun name data perm w =>
    match f.disk with
    | some e => (some e, w)
    | none => (none, { w with files := (name, data, perm) :: w.files })
  DescribeImages := fun _ w =>
    match f.image with
    | some e => (.fail e, w)
    | none => (.out { Images := w.images }, w)
  RunInstances := fun _ w =>
    match f.launch with
    | some e => (.fail e, w)
    | none => (.out { Instances := w.launched }, w)

/-- The world of the end-to-end scenario: profile `go-iam` is loadable, the
account holds no key pair, the catalogue holds the image `ami-00000001`, and
a launch returns the instance `i-0123456789abcdef0`. -/
def freshWorld : World :=
  { profiles := ["go-iam"],
    keyPairs := [],
    images := [{ ImageId := some "ami-00000001" }],
    launched := [{ InstanceId := some "i-0123456789abcdef0" }],
    files := [] }

/-- The lookup is refused for a reason other than an absent key pair. -/
def lookupDenied : Faults :=
  { noFaults with lookup := some "api error UnauthorizedOperation" }

/-- The lookup is refused, with the message the SDK client builds for a
failed `DescribeKeyPairs` operation. -/
def lookupRefused : Faults :=
  { noFaults with
    lookup := some ("operation error EC2: DescribeKeyPairs, https response error " ++
      "StatusCode: 403, api error UnauthorizedOperation: You are not authorized to " ++
      "perform this operation.") }

/-- The creation of a key pair is refused, with the message the SDK client
builds for a failed `CreateKeyPair` operation. -/
def createRefused : Faults :=
  { noFaults with
    create := some ("operation error EC2: CreateKeyPair, https response error " ++
      "StatusCode: 403, api error UnauthorizedOperation: You are not authorized to " ++
      "perform this operation.") }

/-- The key file cannot be written. -/
def diskFull : Faults :=
  { noFaults with disk := some "open go-aws-ec2.pem: no space left on device" }

/-- A world in which no profile can be loaded. -/
def noProfileWorld : World :=
  { freshWorld with profiles := [] }

/-- A world whose image catalogue is empty. -/
def noImageWorld : World :=
  { freshWorld with images := [] }

/-- A world whose image catalogue holds several images. -/
def manyImagesWorld : World :=
  { freshWorld with
    images := [{ ImageId := some "ami-00000002" }, { ImageId := some "ami-00000001" },
               { ImageId := some "ami-00000003" }] }

/-- A world in which a launch reports success without any instance record. -/
def noInstanceWorld : World :=
  { freshWorld with launched := [] }

/-- A world whose account already holds the key pair `go-aws-demo`. -/
def keyedWorld : World :=
  { freshWorld with keyPairs := ["go-aws-demo"] }

/-! ## Notions used in the statements -/

/-- The world state in which `createKeyPair` issues `CreateKeyPair`, when it
does: the one left by the lookup. -/
def afterLookup {σ : Type} (env : Env σ) (name : String) (s : σ) : σ :=
  (env.DescribeKeyPairs { KeyNames := [name] } s).2

/-- The lookup found no key pair: it failed with `InvalidKeyPair.NotFound`,
or it succeeded with an empty list. -/
def noMatch : Reply DescribeKeyPairsOutput → Bool
  | .fail e => strings.Contains e "InvalidKeyPair.NotFound"
  | .out o => o.KeyPairs.length == 0

/-- The remote account seen as a set of key pairs: `has s n` says that the
account of world state `s` holds a key pair named `n`.  A successful create
adds the pair and names it in its reply, writing a file does not change the
account, and looking up a name the account holds returns that pair first. -/
structure KeyPairAccount {σ : Type} (env : Env σ) (has : σ → String → Bool) : Prop where
  create_adds : ∀ (n : String) (s : σ) (output : CreateKeyPairOutput),
    (env.CreateKeyPair { KeyName := some n } s).1 = .out output →
      has (env.CreateKeyPair { KeyName := some n } s).2 n = true ∧ output.KeyName = some n
  write_keeps : ∀ (file data : String) (perm : Nat) (s : σ) (n : String),
    has s n = true → has (env.WriteFile file data perm s).2 n = true
  lookup_finds : ∀ (n : String) (s : σ), has s n = true →
    ∃ rest, (env.DescribeKeyPairs { KeyNames := [n] } s).1 =
      .out { KeyPairs := { KeyName := some n } :: rest }

/-- What `createEC2` returns once `RunInstances` has replied. -/
def launchResult : Reply RunInstancesOutput → Outcome String
  | .fail e => .err ("RunInstances error: " ++ e)
  | .out { Instances := [] } => .err "instance.Instances is of 0 length"
  | .out { Instances := inst :: _ } =>
    match inst.InstanceId with
    | none => .crash .nilDereference
    | some id => .ok id

/-! ## Unfolding lemmas -/

section Lemmas

variable {σ : Type}

theorem createKeyPair_fault (env : Env σ) (name : String) (s : σ) (e : String)
    (h : (env.DescribeKeyPairs { KeyNames := [name] } s).1 = .fail e)
    (hnf : strings.Contains e "InvalidKeyPair.NotFound" = false) :
    createKeyPair env name s =
      { result := .err ("CreateKeyPair error: " ++ e),
        state := afterLookup env name s,
        trace := [Event.describeKeyPairs { KeyNames := [name] } (.fail e)] } := by
  simp [createKeyPair, h, hnf, Reply.err?, Reply.out?, afterLookup]

theorem createKeyPair_creating (env : Env σ) (name : String) (s : σ)
    (h : noMatch (env.DescribeKeyPairs { KeyNames := [name] } s).1 = true) :
    createKeyPair env name s =
      (let r := env.DescribeKeyPairs { KeyNames := [name] } s
       let c := env.CreateKeyPair { KeyName := some name } r.2
       let t2 := [Event.describeKeyPairs { KeyNames := [name] } r.1,
                  Event.createKeyPair { KeyName := some name } c.1]
       match c.1 with
       | .fail e => { result := .err ("CreateKeyPair error: " ++ e), state := c.2, trace := t2 }
       | .out output =>
         match output.KeyMaterial with
         | none => { result := .crash .nilDereference, state := c.2, trace := t2 }
         | some material =>
           let w := env.WriteFile "go-aws-ec2.pem" material 0o600 c.2
           let t3 := t2 ++ [Event.writeFile "go-aws-ec2.pem" material 0o600 w.1]
           match w.1 with
           | some e => { result := .err ("WriteFile error: " ++ e), state := w.2, trace := t3 }
           | none =>
             match output.KeyName with
             | none => { result := .crash .nilDereference, state := w.2, trace := t3 }
             | some n => { result := .ok n, state := w.2, trace := t3 }) := by
  cases hr : (env.DescribeKeyPairs { KeyNames := [name] } s).1 with
  | fail e =>
    rw [hr] at h
    simp only [noMatch] at h
    simp [createKeyPair, hr, h, Reply.err?, Reply.out?]
  | out o =>
    rw [hr] at h
    simp only [noMatch] at h
    simp [createKeyPair, hr, h, Reply.err?, Reply.out?]

theorem createKeyPair_found (env : Env σ) (name : String) (s : σ)
    (kp : KeyPairInfo) (rest : List KeyPairInfo)
    (h : (env.DescribeKeyPairs { KeyNames := [name] } s).1 = .out { KeyPairs := kp :: rest }) :
    createKeyPair env name s =
      { result := (match kp.KeyName with
                   | none => .crash .nilDereference
                   | some n => .ok n),
        state := afterLookup env name s,
        trace := [Event.describeKeyPairs { KeyNames := [name] } (.out { KeyPairs := kp :: rest })] } := by
  cases hk : kp.KeyName <;>
    simp [createKeyPair, h, hk, Reply.err?, Reply.out?, afterLookup]

theorem createKeyPair_not_creating (env : Env σ) (name : String) (s : σ)
    (h : noMatch (env.DescribeKeyPairs { KeyNames := [name] } s).1 = false) :
    (createKeyPair env name s).trace =
        [Event.describeKeyPairs { KeyNames := [name] }
          (env.DescribeKeyPairs { KeyNames := [name] } s).1] ∧
      (createKeyPair env name s).state = afterLookup env name s := by
  cases hr : (env.DescribeKeyPairs { KeyNames := [name] } s).1 with
  | fail e =>
    rw [hr] at h
    simp only [noMatch] at h
    rw [createKeyPair_fault env name s e hr h]
    exact ⟨rfl, rfl⟩
  | out o =>
    rw [hr] at h
    obtain ⟨kps⟩ := o
    cases kps with
    | nil => simp [noMatch] at h
    | cons kp rest =>
      rw [createKeyPair_found env name s kp rest hr]
      exact ⟨rfl, rfl⟩

theorem createKeyPair_trace_keyPairSteps (env : Env σ) (name : String) (s : σ) :
    ∀ ev ∈ (createKeyPair env name s).trace, ev.isKeyPairStep = true := by
  cases hm : noMatch (env.DescribeKeyPairs { KeyNames := [name] } s).1 with
  | false =>
    rw [(createKeyPair_not_creating env name s hm).1]
    simp [Event.isKeyPairStep]
  | true =>
    rw [createKeyPair_creating env name s hm]
    simp only []
    split
    · simp [Event.isKeyPairStep]
    · split
      · simp [Event.isKeyPairStep]
      · split
        · simp [Event.isKeyPairStep]
        · split <;> simp [Event.isKeyPairStep]

theorem describeImages_trace (env : Env σ) (s : σ) :
    (describeImages env s).trace =
      [Event.describeImages describeImagesInput (env.DescribeImages describeImagesInput s).1] := by
  unfold describeImages
  simp only []
  split
  · rfl
  · split
    · rfl
    · split
      · rfl
      · split <;> rfl

theorem describeImages_state (env : Env σ) (s : σ) :
    (describeImages env s).state = (env.DescribeImages describeImagesInput s).2 := by
  unfold describeImages
  simp only []
  split
  · rfl
  · split
    · rfl
    · split
      · rfl
      · split <;> rfl

theorem describeImages_fail (env : Env σ) (s : σ) (e : String)
    (h : (env.DescribeImages describeImagesInput s).1 = .fail e) :
    (describeImages env s).result = .err ("DescribeImages error: " ++ e) := by
  simp [describeImages, h]

theorem describeImages_empty (env : Env σ) (s : σ)
    (h : (env.DescribeImages describeImagesInput s).1 = .out { Images := [] }) :
    (describeImages env s).result = .err "imageOutput.Images is of 0 length" := by
  simp [describeImages, h]

theorem describeImages_first (env : Env σ) (s : σ) (img : Image) (rest : List Image)
    (h : (env.DescribeImages describeImagesInput s).1 = .out { Images := img :: rest }) :
    (describeImages env s).result =
      (match img.ImageId with
       | none => .crash .nilDereference
       | some id => .ok id) := by
  cases hi : img.ImageId <;> simp [describeImages, h, hi]

theorem createEC2_load_fail (env : Env σ) (profile : String) (s : σ) (e : String)
    (h : (env.LoadDefaultConfig profile s).1 = some e) :
    createEC2 env profile s =
      { result := .err ("unable to load SDK config, " ++ e),
        state := (env.LoadDefaultConfig profile s).2,
        trace := [Event.loadConfig profile (some e)] } := by
  simp [createEC2, h]

theorem createEC2_keyPair_err (env : Env σ) (profile : String) (s : σ) (e : String)
    (h : (env.LoadDefaultConfig profile s).1 = none)
    (hk : (createKeyPair env "go-aws-demo" (env.LoadDefaultConfig profile s).2).result = .err e) :
    createEC2 env profile s =
      { result := .err e,
        state := (createKeyPair env "go-aws-demo" (env.LoadDefaultConfig profile s).2).state,
        trace := Event.loadConfig profile none ::
          (createKeyPair env "go-aws-demo" (env.LoadDefaultConfig profile s).2).trace } := by
  simp [createEC2, h, hk]

theorem createEC2_keyPair_crash (env : Env σ) (profile : String) (s : σ) (p : Panic)
    (h : (env.LoadDefaultConfig profile s).1 = none)
    (hk : (createKeyPair env "go-aws-demo" (env.LoadDefaultConfig profile s).2).result
      = .crash p) :
    createEC2 env profile s =
      { result := .crash p,
        state := (createKeyPair env "go-aws-demo" (env.LoadDefaultConfig profile s).2).state,
        trace := Event.loadConfig profile none ::
          (createKeyPair env "go-aws-demo" (env.LoadDefaultConfig profile s).2).trace } := by
  simp [createEC2, h, hk]

theorem createEC2_image_err (env : Env σ) (profile : String) (s : σ)
    (k d : Run σ String) (keyPairName e : String)
    (h : (env.LoadDefaultConfig profile s).1 = none)
    (hk : createKeyPair env "go-aws-demo" (env.LoadDefaultConfig profile s).2 = k)
    (hkr : k.result = .ok keyPairName)
    (hd : describeImages env k.state = d)
    (hdr : d.result = .err e) :
    createEC2 env profile s =
      { result := .err e, state := d.state,
        trace := Event.loadConfig profile none :: (k.trace ++ d.trace) } := by
  subst hk hd
  simp [createEC2, h, hkr, hdr]

theorem createEC2_image_crash (env : Env σ) (profile : String) (s : σ)
    (k d : Run σ String) (keyPairName : String) (p : Panic)
    (h : (env.LoadDefaultConfig profile s).1 = none)
    (hk : createKeyPair env "go-aws-demo" (env.LoadDefaultConfig profile s).2 = k)
    (hkr : k.result = .ok keyPairName)
    (hd : describeImages env k.state = d)
    (hdr : d.result = .crash p) :
    createEC2 env profile s =
      { result := .crash p, state := d.state,
        trace := Event.loadConfig profile none :: (k.trace ++ d.trace) } := by
  subst hk hd
  simp [createEC2, h, hkr, hdr]

theorem createEC2_launch (env : Env σ) (profile : String) (s : σ)
    (k d : Run σ String) (keyPairName imageId : String)
    (h : (env.LoadDefaultConfig profile s).1 = none)
    (hk : createKeyPair env "go-aws-demo" (env.LoadDefaultConfig profile s).2 = k)
    (hkr : k.result = .ok keyPairName)
    (hd : describeImages env k.state = d)
    (hdr : d.result = .ok imageId) :
    createEC2 env profile s =
      { result := launchResult
          (env.RunInstances (runInstancesInput imageId keyPairName) d.state).1,
        state := (env.RunInstances (runInstancesInput imageId keyPairName) d.state).2,
        trace := Event.loadConfig profile none :: (k.trace ++ d.trace ++
          [Event.runInstances (runInstancesInput imageId keyPairName)
            (env.RunInstances (runInstancesInput imageId keyPairName) d.state).1]) } := by
  subst hk hd
  cases hi : (env.RunInstances (runInstancesInput imageId keyPairName)
      (describeImages env (createKeyPair env "go-aws-demo"
        (env.LoadDefaultConfig profile s).2).state).state).1 with
  | fail e => simp [createEC2, h, hkr, hdr, hi, launchResult]
  | out o =>
    obtain ⟨insts⟩ := o
    cases insts with
    | nil => simp [createEC2, h, hkr, hdr, hi, launchResult]
    | cons inst rest =>
      cases hid : inst.InstanceId <;> simp [createEC2, h, hkr, hdr, hi, hid, launchResult]

theorem launchCalls_append (t u : List Event) :
    launchCalls (t ++ u) = launchCalls t ++ launchCalls u := by
  induction t with
  | nil => rfl
  | cons ev t ih => cases ev <;> simp [launchCalls, ih]

theorem launchCalls_eq_nil_of_keyPairSteps (t : List Event)
    (h : ∀ ev ∈ t, ev.isKeyPairStep = true) : launchCalls t = [] := by
  induction t with
  | nil => rfl
  | cons ev t ih =>
    have hev := h ev (List.mem_cons_self _ _)
    have ht := ih (fun x hx => h x (List.mem_cons_of_mem _ hx))
    cases ev <;> simp_all [launchCalls, Event.isKeyPairStep]

theorem simEnv_account (f : Faults) (h : f.lookup = none) :
    KeyPairAccount (simEnv f) (fun w n => decide (n ∈ w.keyPairs)) where
  create_adds := by
    intro n w output hc
    obtain ⟨fl, fc, fd, fi, fr⟩ := f
    cases fc with
    | some e => simp [simEnv] at hc
    | none =>
      by_cases hn : n ∈ w.keyPairs
      · simp [simEnv, hn] at hc
      · simp [simEnv, hn] at hc ⊢
        rw [← hc]
  write_keeps := by
    intro file data perm w n hn
    obtain ⟨fl, fc, fd, fi, fr⟩ := f
    cases fd <;> simpa [simEnv] using hn
  lookup_finds := by
    intro n w hn
    refine ⟨[], ?_⟩
    simp only [decide_eq_true_eq] at hn
    simp [simEnv, h, hn]

theorem createKeyPair_no_index_panic (env : Env σ) (name : String) (s : σ) :
    (createKeyPair env name s).result ≠ .crash .indexOutOfRange := by
  cases hm : noMatch (env.DescribeKeyPairs { KeyNames := [name] } s).1 with
  | true =>
    rw [createKeyPair_creating env name s hm]
    simp only []
    split
    · simp
    · split
      · simp
      · split
        · simp
        · split <;> simp
  | false =>
    cases hr : (env.DescribeKeyPairs { KeyNames := [name] } s).1 with
    | fail e =>
      rw [hr] at hm
      simp only [noMatch] at hm
      rw [createKeyPair_fault env name s e hr hm]
      simp
    | out o =>
      rw [hr] at hm
      obtain ⟨kps⟩ := o
      cases kps with
      | nil => simp [noMatch] at hm
      | cons kp rest =>
        rw [createKeyPair_found env name s kp rest hr]
        cases kp.KeyName <;> simp

theorem describeImages_no_index_panic (env : Env σ) (s : σ) :
    (describeImages env s).result ≠ .crash .indexOutOfRange := by
  cases hr : (env.DescribeImages describeImagesInput s).1 with
  | fail e => rw [describeImages_fail env s e hr]; simp
  | out o =>
    obtain ⟨imgs⟩ := o
    cases imgs with
    | nil => rw [describeImages_empty env s hr]; simp
    | cons img rest =>
      rw [describeImages_first env s img rest hr]
      cases img.ImageId <;> simp

theorem launchResult_no_index_panic (r : Reply RunInstancesOutput) :
    launchResult r ≠ .crash .indexOutOfRange := by
  cases r with
  | fail e => simp [launchResult]
  | out o =>
    obtain ⟨insts⟩ := o
    cases insts with
    | nil => simp [launchResult]
    | cons inst rest => cases hi : inst.InstanceId <;> simp [launchResult, hi]

theorem createKeyPair_write_path (env : Env σ) (name : String) (s : σ)
    (output : CreateKeyPairOutput) (material : String)
    (hno : noMatch (env.DescribeKeyPairs { KeyNames := [name] } s).1 = true)
    (hc : (env.CreateKeyPair { KeyName := some name } (afterLookup env name s)).1 = .out output)
    (hm : output.KeyMaterial = some material) :
    createKeyPair env name s =
      { result :=
          (match (env.WriteFile "go-aws-ec2.pem" material 0o600
              (env.CreateKeyPair { KeyName := some name } (afterLookup env name s)).2).1 with
           | some e => .err ("WriteFile error: " ++ e)
           | none =>
             match output.KeyName with
             | none => .crash .nilDereference
             | some n => .ok n),
        state := (env.WriteFile "go-aws-ec2.pem" material 0o600
          (env.CreateKeyPair { KeyName := some name } (afterLookup env name s)).2).2,
        trace :=
          [Event.describeKeyPairs { KeyNames := [name] }
             (env.DescribeKeyPairs { KeyNames := [name] } s).1,
           Event.createKeyPair { KeyName := some name } (.out output),
           Event.writeFile "go-aws-ec2.pem" material 0o600
             (env.WriteFile "go-aws-ec2.pem" material 0o600
               (env.CreateKeyPair { KeyName := some name } (afterLookup env name s)).2).1] } := by
  rw [createKeyPair_creating env name s hno]
  simp only [afterLookup] at hc ⊢
  simp only [hc, hm]
  cases (env.WriteFile "go-aws-ec2.pem" material 0o600
      (env.CreateKeyPair { KeyName := some name }
        (env.DescribeKeyPairs { KeyNames := [name] } s).2).2).1 with
  | some e => simp
  | none => cases output.KeyName <;> simp

theorem createKeyPair_trace_shape (env : Env σ) (name : String) (s : σ) :
    (∃ l, (createKeyPair env name s).trace = [Event.describeKeyPairs { KeyNames := [name] } l]) ∨
    (∃ l c, (createKeyPair env name s).trace =
      [Event.describeKeyPairs { KeyNames := [name] } l,
       Event.createKeyPair { KeyName := some name } c]) ∨
    (∃ l output material werr, output.KeyMaterial = some material ∧
      (createKeyPair env name s).trace =
        [Event.describeKeyPairs { KeyNames := [name] } l,
         Event.createKeyPair { KeyName := some name } (.out output),
         Event.writeFile "go-aws-ec2.pem" material 0o600 werr]) := by
  cases hm : noMatch (env.DescribeKeyPairs { KeyNames := [name] } s).1 with
  | false => exact Or.inl ⟨_, (createKeyPair_not_creating env name s hm).1⟩
  | true =>
    cases hc : (env.CreateKeyPair { KeyName := some name } (afterLookup env name s)).1 with
    | fail e =>
      refine Or.inr (Or.inl ⟨(env.DescribeKeyPairs { KeyNames := [name] } s).1, .fail e, ?_⟩)
      rw [createKeyPair_creating env name s hm]
      simp only [afterLookup] at hc
      simp only [hc]
    | out output =>
      cases hmat : output.KeyMaterial with
      | none =>
        refine Or.inr (Or.inl ⟨(env.DescribeKeyPairs { KeyNames := [name] } s).1,
          .out output, ?_⟩)
        rw [createKeyPair_creating env name s hm]
        simp only [afterLookup] at hc
        simp only [hc, hmat]
      | some material =>
        refine Or.inr (Or.inr ⟨(env.DescribeKeyPairs { KeyNames := [name] } s).1, output,
          material, (env.WriteFile "go-aws-ec2.pem" material 0o600
            (env.CreateKeyPair { KeyName := some name } (afterLookup env name s)).2).1,
          hmat, ?_⟩)
        rw [createKeyPair_write_path env name s output material hm hc hmat]

theorem launchCalls_describeImages_trace (env : Env σ) (s : σ) :
    launchCalls (describeImages env s).trace = [] := by
  rw [describeImages_trace]
  rfl

end Lemmas

/-! ## Theorems -/

section Theorems

variable {σ : Type}

/-- C1: when the key-pair lookup of `createKeyPair` fails, either its error
message carries `InvalidKeyPair.NotFound`, and then `CreateKeyPair` is
requested exactly once (for the given name), or it does not, and then no
`CreateKeyPair` request and no file write is issued and the function returns
the key-pair error wrapping the lookup error's own message. -/
theorem createKeyPair_lookup_failure (env : Env σ) (name : String) (s : σ) (e : String)
    (h : (env.DescribeKeyPairs { KeyNames := [name] } s).1 = .fail e) :
    (strings.Contains e "InvalidKeyPair.NotFound" = true →
      createCalls (createKeyPair env name s).trace = [{ KeyName := some name }]) ∧
    (strings.Contains e "InvalidKeyPair.NotFound" = false →
      createCalls (createKeyPair env name s).trace = [] ∧
      writeCalls (createKeyPair env name s).trace = [] ∧
      (createKeyPair env name s).result = .err ("CreateKeyPair error: " ++ e)) := by
  constructor
  · intro hnf
    have hm : noMatch (env.DescribeKeyPairs { KeyNames := [name] } s).1 = true := by
      rw [h]; exact hnf
    rw [createKeyPair_creating env name s hm]
    simp only []
    split
    · simp [createCalls]
    · split
      · simp [createCalls]
      · split
        · simp [createCalls]
        · split <;> simp [createCalls]
  · intro hnf
    rw [createKeyPair_fault env name s e h hnf]
    simp [createCalls, writeCalls]

theorem createKeyPair_lookup_failure_witness :
    createCalls (createKeyPair (simEnv noFaults) "go-aws-demo" freshWorld).trace =
        [{ KeyName := some "go-aws-demo" }] ∧
      (createKeyPair (simEnv lookupDenied) "go-aws-demo" freshWorld).result =
        .err "CreateKeyPair error: api error UnauthorizedOperation" :=
  ⟨(createKeyPair_lookup_failure (simEnv noFaults) "go-aws-demo" freshWorld
      "api error InvalidKeyPair.NotFound: The key pair does not exist" rfl).1 (by decide),
   ((createKeyPair_lookup_failure (simEnv lookupDenied) "go-aws-demo" freshWorld
      "api error UnauthorizedOperation" rfl).2 (by decide)).2.2⟩

/-- C2: over a remote account that behaves as a set of key pairs, if a call
of `createKeyPair` requests a creation and returns a name, a second call with
the same name, started in the world the first one left, returns the same
name and issues no `CreateKeyPair` request and no file write. -/
theorem createKeyPair_idempotent (env : Env σ) (has : σ → String → Bool)
    (acct : KeyPairAccount env has) (name : String) (s : σ) (n : String)
    (hcreate : createCalls (createKeyPair env name s).trace ≠ [])
    (hok : (createKeyPair env name s).result = .ok n) :
    (createKeyPair env name (createKeyPair env name s).state).result = .ok n ∧
    createCalls (createKeyPair env name (createKeyPair env name s).state).trace = [] ∧
    writeCalls (createKeyPair env name (createKeyPair env name s).state).trace = [] := by
  cases hm : noMatch (env.DescribeKeyPairs { KeyNames := [name] } s).1 with
  | false =>
    exfalso
    apply hcreate
    rw [(createKeyPair_not_creating env name s hm).1]
    rfl
  | true =>
    have hrun := createKeyPair_creating env name s hm
    simp only [] at hrun
    cases hc : (env.CreateKeyPair { KeyName := some name }
        (env.DescribeKeyPairs { KeyNames := [name] } s).2).1 with
    | fail e =>
      rw [hc] at hrun
      rw [hrun] at hok
      simp at hok
    | out output =>
      obtain ⟨hhas, hname⟩ := acct.create_adds name _ output hc
      rw [hc] at hrun
      simp only [] at hrun
      cases hmat : output.KeyMaterial with
      | none =>
        rw [hmat] at hrun
        rw [hrun] at hok
        simp at hok
      | some material =>
        rw [hmat] at hrun
        simp only [] at hrun
        cases hw : (env.WriteFile "go-aws-ec2.pem" material 0o600
            (env.CreateKeyPair { KeyName := some name }
              (env.DescribeKeyPairs { KeyNames := [name] } s).2).2).1 with
        | some e =>
          rw [hw] at hrun
          rw [hrun] at hok
          simp at hok
        | none =>
          rw [hw, hname] at hrun
          simp only [] at hrun
          rw [hrun] at hok ⊢
          simp only [Outcome.ok.injEq] at hok
          subst hok
          obtain ⟨rest, hfind⟩ := acct.lookup_finds name _
            (acct.write_keeps "go-aws-ec2.pem" material 0o600 _ name hhas)
          rw [createKeyPair_found env name _ _ rest hfind]
          simp [createCalls, writeCalls]

theorem createKeyPair_idempotent_witness :
    createCalls (createKeyPair (simEnv noFaults) "go-aws-demo" freshWorld).trace ≠ [] ∧
      (createKeyPair (simEnv noFaults) "go-aws-demo" freshWorld).result = .ok "go-aws-demo" ∧
      (createKeyPair (simEnv noFaults) "go-aws-demo"
        (createKeyPair (simEnv noFaults) "go-aws-demo" freshWorld).state).result
          = .ok "go-aws-demo" :=
  ⟨by decide, by decide,
   (createKeyPair_idempotent (simEnv noFaults) (fun w n => decide (n ∈ w.keyPairs))
      (simEnv_account noFaults rfl) "go-aws-demo" freshWorld "go-aws-demo"
      (by decide) (by decide)).1⟩

/-- C3: when the configuration of the profile cannot be loaded, `createEC2`
returns the configuration error and its only call is the failed load (no
key-pair, image or instance call and no file write); `main`, which runs
`createEC2` for the profile `go-iam`, then ends the process with exit code 1
after the same single call. -/
theorem config_load_failure (env : Env σ) (profile : String) (s : σ) (e : String)
    (h : (env.LoadDefaultConfig profile s).1 = some e) :
    (createEC2 env profile s).result = .err ("unable to load SDK config, " ++ e) ∧
    (createEC2 env profile s).trace = [Event.loadConfig profile (some e)] ∧
    (profile = "go-iam" →
      (main env s).code = 1 ∧
      (main env s).trace = [Event.loadConfig "go-iam" (some e)] ∧
      (main env s).stdout = "createEC2 error: " ++ ("unable to load SDK config, " ++ e)) := by
  refine ⟨?_, ?_, ?_⟩
  · rw [createEC2_load_fail env profile s e h]
  · rw [createEC2_load_fail env profile s e h]
  · intro hp
    subst hp
    simp [main, createEC2_load_fail env "go-iam" s e h]

theorem config_load_failure_witness :
    (simEnv noFaults).LoadDefaultConfig "go-iam" noProfileWorld =
        (some "failed to get shared config profile, go-iam", noProfileWorld) ∧
      (main (simEnv noFaults) noProfileWorld).code = 1 ∧
      (main (simEnv noFaults) noProfileWorld).trace =
        [Event.loadConfig "go-iam" (some "failed to get shared config profile, go-iam")] :=
  ⟨by decide,
   ((config_load_failure (simEnv noFaults) "go-iam" noProfileWorld
      "failed to get shared config profile, go-iam" (by decide)).2.2 rfl).1,
   ((config_load_failure (simEnv noFaults) "go-iam" noProfileWorld
      "failed to get shared config profile, go-iam" (by decide)).2.2 rfl).2.1⟩

/-- C4: when the image query succeeds with zero images, `describeImages`
fails with the empty-result error `imageOutput.Images is of 0 length`; and
every run of `createEC2` in which the image query returned zero images
returns that error and issues no `RunInstances` request. -/
theorem empty_image_result (env : Env σ) (profile : String) (s : σ) :
    (∀ s0 : σ, (env.DescribeImages describeImagesInput s0).1 = .out { Images := [] } →
      (describeImages env s0).result = .err "imageOutput.Images is of 0 length") ∧
    (∀ input : DescribeImagesInput,
      Event.describeImages input (.out { Images := [] }) ∈ (createEC2 env profile s).trace →
        (createEC2 env profile s).result = .err "imageOutput.Images is of 0 length" ∧
        launchCalls (createEC2 env profile s).trace = []) := by
  refine ⟨fun s0 h0 => describeImages_empty env s0 h0, ?_⟩
  intro input hmem
  cases hl : (env.LoadDefaultConfig profile s).1 with
  | some e =>
    rw [createEC2_load_fail env profile s e hl] at hmem
    simp at hmem
  | none =>
    have hsteps := createKeyPair_trace_keyPairSteps env "go-aws-demo"
      (env.LoadDefaultConfig profile s).2
    have hnot : Event.describeImages input (.out { Images := [] }) ∉
        (createKeyPair env "go-aws-demo" (env.LoadDefaultConfig profile s).2).trace := by
      intro hin
      have := hsteps _ hin
      simp [Event.isKeyPairStep] at this
    cases hk : (createKeyPair env "go-aws-demo" (env.LoadDefaultConfig profile s).2).result with
    | err e =>
      rw [createEC2_keyPair_err env profile s e hl hk] at hmem
      simp [hnot] at hmem
    | crash p =>
      rw [createEC2_keyPair_crash env profile s p hl hk] at hmem
      simp [hnot] at hmem
    | ok keyPairName =>
      have htr := describeImages_trace env
        (createKeyPair env "go-aws-demo" (env.LoadDefaultConfig profile s).2).state
      have hempty : (env.DescribeImages describeImagesInput
          (createKeyPair env "go-aws-demo" (env.LoadDefaultConfig profile s).2).state).1
            = .out { Images := [] } := by
        cases hd : (describeImages env
            (createKeyPair env "go-aws-demo" (env.LoadDefaultConfig profile s).2).state).result with
        | err e =>
          rw [createEC2_image_err env profile s _ _ keyPairName e hl rfl hk rfl hd] at hmem
          simp [hnot, htr] at hmem
          exact hmem.2.symm
        | crash p =>
          rw [createEC2_image_crash env profile s _ _ keyPairName p hl rfl hk rfl hd] at hmem
          simp [hnot, htr] at hmem
          exact hmem.2.symm
        | ok imageId =>
          rw [createEC2_launch env profile s _ _ keyPairName imageId hl rfl hk rfl hd] at hmem
          simp [hnot, htr] at hmem
          exact hmem.2.symm
      have hres := describeImages_empty env _ hempty
      rw [createEC2_image_err env profile s _ _ keyPairName _ hl rfl hk rfl hres]
      refine ⟨rfl, ?_⟩
      simp only [htr]
      rw [show Event.loadConfig profile none :: ((createKeyPair env "go-aws-demo"
          (env.LoadDefaultConfig profile s).2).trace ++ [Event.describeImages describeImagesInput
          (env.DescribeImages describeImagesInput (createKeyPair env "go-aws-demo"
          (env.LoadDefaultConfig profile s).2).state).1]) = [Event.loadConfig profile none] ++
          ((createKeyPair env "go-aws-demo" (env.LoadDefaultConfig profile s).2).trace ++
          [Event.describeImages describeImagesInput (env.DescribeImages describeImagesInput
          (createKeyPair env "go-aws-demo" (env.LoadDefaultConfig profile s).2).state).1]) from rfl]
      rw [launchCalls_append, launchCalls_append, launchCalls_eq_nil_of_keyPairSteps _ hsteps]
      rfl

theorem empty_image_result_witness :
    Event.describeImages describeImagesInput (.out { Images := [] }) ∈
        (createEC2 (simEnv noFaults) "go-iam" noImageWorld).trace ∧
      (createEC2 (simEnv noFaults) "go-iam" noImageWorld).result =
        .err "imageOutput.Images is of 0 length" ∧
      launchCalls (createEC2 (simEnv noFaults) "go-iam" noImageWorld).trace = [] :=
  ⟨by decide,
   (empty_image_result (simEnv noFaults) "go-iam" noImageWorld).2 describeImagesInput
     (by decide)⟩

/-- C5: when the image query succeeds with a non-empty sequence of images,
`describeImages` returns the identifier of the first image of the sequence
as returned; and the result of `describeImages` is a function of the reply
of the query alone (same reply, same result). -/
theorem describeImages_selects_first (env : Env σ) (s : σ) (img : Image) (rest : List Image)
    (id : String)
    (h : (env.DescribeImages describeImagesInput s).1 = .out { Images := img :: rest })
    (hid : img.ImageId = some id) :
    (describeImages env s).result = .ok id ∧
    (∀ (τ : Type) (env2 : Env τ) (s2 : τ),
      (env2.DescribeImages describeImagesInput s2).1
          = (env.DescribeImages describeImagesInput s).1 →
        (describeImages env2 s2).result = .ok id) := by
  constructor
  · rw [describeImages_first env s img rest h, hid]
  · intro τ env2 s2 h2
    rw [h] at h2
    rw [describeImages_first env2 s2 img rest h2, hid]

theorem describeImages_selects_first_witness :
    (describeImages (simEnv noFaults) manyImagesWorld).result = .ok "ami-00000002" :=
  (describeImages_selects_first (simEnv noFaults) manyImagesWorld
    { ImageId := some "ami-00000002" }
    [{ ImageId := some "ami-00000001" }, { ImageId := some "ami-00000003" }]
    "ami-00000002" rfl rfl).1

/-- C6: every run of `createEC2` in which `RunInstances` reported success with
zero instance records returns the empty-result error
`instance.Instances is of 0 length`; and no run of `createEC2` ends in an
index-out-of-range panic, that is, `Instances[0]` (like every other indexing
of the script) is evaluated on non-empty lists only. -/
theorem empty_launch_result (env : Env σ) (profile : String) (s : σ) :
    (∀ (input : RunInstancesInput) (output : RunInstancesOutput),
      output.Instances = [] →
      Event.runInstances input (.out output) ∈ (createEC2 env profile s).trace →
        (createEC2 env profile s).result = .err "instance.Instances is of 0 length") ∧
    (createEC2 env profile s).result ≠ .crash .indexOutOfRange := by
  cases hl : (env.LoadDefaultConfig profile s).1 with
  | some e =>
    rw [createEC2_load_fail env profile s e hl]
    simp
  | none =>
    have hsteps := createKeyPair_trace_keyPairSteps env "go-aws-demo"
      (env.LoadDefaultConfig profile s).2
    have hnot : ∀ (input : RunInstancesInput) (r : Reply RunInstancesOutput),
        Event.runInstances input r ∉
          (createKeyPair env "go-aws-demo" (env.LoadDefaultConfig profile s).2).trace := by
      intro input r hin
      have := hsteps _ hin
      simp [Event.isKeyPairStep] at this
    have hkp := createKeyPair_no_index_panic env "go-aws-demo" (env.LoadDefaultConfig profile s).2
    cases hk : (createKeyPair env "go-aws-demo" (env.LoadDefaultConfig profile s).2).result with
    | err e =>
      rw [createEC2_keyPair_err env profile s e hl hk]
      simp [hnot]
    | crash p =>
      rw [createEC2_keyPair_crash env profile s p hl hk]
      rw [hk] at hkp
      simp [hnot]
      intro hp
      exact hkp (by rw [hp])
    | ok keyPairName =>
      have htr := describeImages_trace env
        (createKeyPair env "go-aws-demo" (env.LoadDefaultConfig profile s).2).state
      have hdi := describeImages_no_index_panic env
        (createKeyPair env "go-aws-demo" (env.LoadDefaultConfig profile s).2).state
      cases hd : (describeImages env
          (createKeyPair env "go-aws-demo" (env.LoadDefaultConfig profile s).2).state).result with
      | err e =>
        rw [createEC2_image_err env profile s _ _ keyPairName e hl rfl hk rfl hd]
        simp [hnot, htr]
      | crash p =>
        rw [createEC2_image_crash env profile s _ _ keyPairName p hl rfl hk rfl hd]
        rw [hd] at hdi
        simp [hnot, htr]
        intro hp
        exact hdi (by rw [hp])
      | ok imageId =>
        rw [createEC2_launch env profile s _ _ keyPairName imageId hl rfl hk rfl hd]
        refine ⟨?_, launchResult_no_index_panic _⟩
        intro input output hout hmem
        simp [hnot, htr] at hmem
        rw [← hmem.2]
        obtain ⟨insts⟩ := output
        simp only at hout
        subst hout
        rfl

theorem empty_launch_result_witness :
    Event.runInstances (runInstancesInput "ami-00000001" "go-aws-demo")
        (.out { Instances := [] }) ∈
        (createEC2 (simEnv noFaults) "go-iam" noInstanceWorld).trace ∧
      (createEC2 (simEnv noFaults) "go-iam" noInstanceWorld).result =
        .err "instance.Instances is of 0 length" :=
  ⟨by decide,
   (empty_launch_result (simEnv noFaults) "go-iam" noInstanceWorld).1
     (runInstancesInput "ami-00000001" "go-aws-demo") { Instances := [] } rfl (by decide)⟩

/-- C7: when the key-pair lookup returns one or more matches, `createKeyPair`
issues no `CreateKeyPair` request and no file write and returns the name of
the first match; and in every run of `createKeyPair` there is at most one
file write, and a file write is preceded in the trace by a `CreateKeyPair`
call that succeeded. -/
theorem createKeyPair_existing (env : Env σ) (name : String) (s : σ) :
    (∀ (kp : KeyPairInfo) (rest : List KeyPairInfo),
      (env.DescribeKeyPairs { KeyNames := [name] } s).1 = .out { KeyPairs := kp :: rest } →
        createCalls (createKeyPair env name s).trace = [] ∧
        writeCalls (createKeyPair env name s).trace = [] ∧
        (∀ n : String, kp.KeyName = some n → (createKeyPair env name s).result = .ok n)) ∧
    (writeCalls (createKeyPair env name s).trace).length ≤ 1 ∧
    (∀ (before after : List Event) (file data : String) (perm : Nat) (werr : Option String),
      (createKeyPair env name s).trace = before ++ Event.writeFile file data perm werr :: after →
        ∃ input output, Event.createKeyPair input (.out output) ∈ before) := by
  refine ⟨?_, ?_, ?_⟩
  · intro kp rest h
    rw [createKeyPair_found env name s kp rest h]
    refine ⟨rfl, rfl, ?_⟩
    intro n hn
    simp [hn]
  · rcases createKeyPair_trace_shape env name s with ⟨l, h⟩ | ⟨l, c, h⟩ | ⟨l, o, m, w, _, h⟩ <;>
      rw [h] <;> simp [writeCalls]
  · intro before after file data perm werr htr
    rcases createKeyPair_trace_shape env name s with ⟨l, h⟩ | ⟨l, c, h⟩ | ⟨l, o, m, w, _, h⟩
    · rw [h] at htr
      rcases before with _ | ⟨b1, _ | ⟨b2, before⟩⟩ <;> simp at htr
    · rw [h] at htr
      rcases before with _ | ⟨b1, _ | ⟨b2, _ | ⟨b3, before⟩⟩⟩ <;> simp at htr
    · rw [h] at htr
      rcases before with _ | ⟨b1, _ | ⟨b2, _ | ⟨b3, before⟩⟩⟩ <;> simp at htr
      obtain ⟨-, h2, -⟩ := htr
      exact ⟨{ KeyName := some name }, o, by simp [← h2]⟩

theorem createKeyPair_existing_witness :
    (createKeyPair (simEnv noFaults) "go-aws-demo" keyedWorld).result = .ok "go-aws-demo" ∧
      createCalls (createKeyPair (simEnv noFaults) "go-aws-demo" keyedWorld).trace = [] ∧
      writeCalls (createKeyPair (simEnv noFaults) "go-aws-demo" keyedWorld).trace = [] :=
  ⟨((createKeyPair_existing (simEnv noFaults) "go-aws-demo" keyedWorld).1
      { KeyName := some "go-aws-demo" } [] rfl).2.2 "go-aws-demo" rfl,
   ((createKeyPair_existing (simEnv noFaults) "go-aws-demo" keyedWorld).1
      { KeyName := some "go-aws-demo" } [] rfl).1,
   ((createKeyPair_existing (simEnv noFaults) "go-aws-demo" keyedWorld).1
      { KeyName := some "go-aws-demo" } [] rfl).2.1⟩

/-- C8: when the key-pair lookup yields no match and `CreateKeyPair` succeeds
with key material `material`, `createKeyPair` issues exactly one file write,
of `material` unchanged to the file `go-aws-ec2.pem` with mode `0600`; if
that write succeeds the function returns the name of the created key pair,
and if it fails with `e` the function returns the error
`WriteFile error: e`. -/
theorem createKeyPair_persists_key (env : Env σ) (name : String) (s : σ)
    (output : CreateKeyPairOutput) (material : String)
    (hno : noMatch (env.DescribeKeyPairs { KeyNames := [name] } s).1 = true)
    (hc : (env.CreateKeyPair { KeyName := some name } (afterLookup env name s)).1 = .out output)
    (hm : output.KeyMaterial = some material) :
    writeCalls (createKeyPair env name s).trace = [("go-aws-ec2.pem", material, 0o600)] ∧
    ((env.WriteFile "go-aws-ec2.pem" material 0o600
        (env.CreateKeyPair { KeyName := some name } (afterLookup env name s)).2).1 = none →
      ∀ n : String, output.KeyName = some n → (createKeyPair env name s).result = .ok n) ∧
    (∀ e : String,
      (env.WriteFile "go-aws-ec2.pem" material 0o600
        (env.CreateKeyPair { KeyName := some name } (afterLookup env name s)).2).1 = some e →
      (createKeyPair env name s).result = .err ("WriteFile error: " ++ e)) := by
  rw [createKeyPair_write_path env name s output material hno hc hm]
  refine ⟨rfl, ?_, ?_⟩
  · intro hw n hn
    simp [hw, hn]
  · intro e hw
    simp [hw]

theorem createKeyPair_persists_key_witness :
    writeCalls (createKeyPair (simEnv noFaults) "go-aws-demo" freshWorld).trace =
        [("go-aws-ec2.pem", "PRIVATE KEY go-aws-demo", 0o600)] ∧
      (createKeyPair (simEnv noFaults) "go-aws-demo" freshWorld).result = .ok "go-aws-demo" ∧
      (createKeyPair (simEnv diskFull) "go-aws-demo" freshWorld).result =
        .err "WriteFile error: open go-aws-ec2.pem: no space left on device" :=
  ⟨(createKeyPair_persists_key (simEnv noFaults) "go-aws-demo" freshWorld
      { KeyName := some "go-aws-demo", KeyMaterial := some "PRIVATE KEY go-aws-demo" }
      "PRIVATE KEY go-aws-demo" (by decide) (by decide) rfl).1,
   (createKeyPair_persists_key (simEnv noFaults) "go-aws-demo" freshWorld
      { KeyName := some "go-aws-demo", KeyMaterial := some "PRIVATE KEY go-aws-demo" }
      "PRIVATE KEY go-aws-demo" (by decide) (by decide) rfl).2.1 (by decide) "go-aws-demo" rfl,
   (createKeyPair_persists_key (simEnv diskFull) "go-aws-demo" freshWorld
      { KeyName := some "go-aws-demo", KeyMaterial := some "PRIVATE KEY go-aws-demo" }
      "PRIVATE KEY go-aws-demo" (by decide) (by decide) rfl).2.2
      "open go-aws-ec2.pem: no space left on device" (by decide)⟩

/-- C9: in every run of `createEC2` in which the configuration loads,
`createKeyPair` returns `keyPairName` and `describeImages` returns `imageId`,
the trace is the load, the key-pair calls, the image query and then one
`RunInstances` request, the only one of the run, for image `imageId`, key
name `keyPairName`, instance type `t2.micro` and minimum and maximum count 1;
and when that launch returns a non-empty instance list, `createEC2` returns
the identifier of the first instance.  In the scenario of a fresh account
(no key pair `go-aws-demo`, one image `ami-00000001`, launch returning
`i-0123456789abcdef0`) the run writes the key file, then launches, and `main`
prints the instance identifier and ends with exit code 0. -/
theorem createEC2_launches_once (env : Env σ) (profile : String) (s : σ)
    (k d : Run σ String) (keyPairName imageId : String)
    (h : (env.LoadDefaultConfig profile s).1 = none)
    (hk : createKeyPair env "go-aws-demo" (env.LoadDefaultConfig profile s).2 = k)
    (hkr : k.result = .ok keyPairName)
    (hd : describeImages env k.state = d)
    (hdr : d.result = .ok imageId) :
    (createEC2 env profile s).trace =
      Event.loadConfig profile none :: (k.trace ++ d.trace ++
        [Event.runInstances
          { ImageId := some imageId, KeyName := some keyPairName, InstanceType := "t2.micro",
            MinCount := some 1, MaxCount := some 1 }
          (env.RunInstances
            { ImageId := some imageId, KeyName := some keyPairName, InstanceType := "t2.micro",
              MinCount := some 1, MaxCount := some 1 } d.state).1]) ∧
    launchCalls (createEC2 env profile s).trace =
      [{ ImageId := some imageId, KeyName := some keyPairName, InstanceType := "t2.micro",
         MinCount := some 1, MaxCount := some 1 }] ∧
    (∀ (inst : Instance) (rest : List Instance) (id : String),
      (env.RunInstances
        { ImageId := some imageId, KeyName := some keyPairName, InstanceType := "t2.micro",
          MinCount := some 1, MaxCount := some 1 } d.state).1
        = .out { Instances := inst :: rest } →
      inst.InstanceId = some id →
      (createEC2 env profile s).result = .ok id) ∧
    ((main (simEnv noFaults) freshWorld).code = 0 ∧
      (main (simEnv noFaults) freshWorld).stdout = "Instance id: i-0123456789abcdef0" ∧
      (createEC2 (simEnv noFaults) "go-iam" freshWorld).result = .ok "i-0123456789abcdef0" ∧
      (main (simEnv noFaults) freshWorld).trace =
        [Event.loadConfig "go-iam" none,
         Event.describeKeyPairs { KeyNames := ["go-aws-demo"] }
           (.fail "api error InvalidKeyPair.NotFound: The key pair does not exist"),
         Event.createKeyPair { KeyName := some "go-aws-demo" }
           (.out { KeyName := some "go-aws-demo",
                   KeyMaterial := some "PRIVATE KEY go-aws-demo" }),
         Event.writeFile "go-aws-ec2.pem" "PRIVATE KEY go-aws-demo" 0o600 none,
         Event.describeImages describeImagesInput
           (.out { Images := [{ ImageId := some "ami-00000001" }] }),
         Event.runInstances
           { ImageId := some "ami-00000001", KeyName := some "go-aws-demo",
             InstanceType := "t2.micro", MinCount := some 1, MaxCount := some 1 }
           (.out { Instances := [{ InstanceId := some "i-0123456789abcdef0" }] })] ∧
      (main (simEnv noFaults) freshWorld).state.files =
        [("go-aws-ec2.pem", "PRIVATE KEY go-aws-demo", 0o600)]) := by
  have hrun := createEC2_launch env profile s k d keyPairName imageId h hk hkr hd hdr
  have hin : runInstancesInput imageId keyPairName =
      { ImageId := some imageId, KeyName := some keyPairName, InstanceType := "t2.micro",
        MinCount := some 1, MaxCount := some 1 } := rfl
  rw [hin] at hrun
  refine ⟨?_, ?_, ?_, ?_⟩
  · rw [hrun]
  · rw [hrun]
    have hkt : launchCalls k.trace = [] := by
      rw [← hk]
      exact launchCalls_eq_nil_of_keyPairSteps _ (createKeyPair_trace_keyPairSteps env _ _)
    have hdt : launchCalls d.trace = [] := by
      rw [← hd]
      exact launchCalls_describeImages_trace env _
    show launchCalls ([Event.loadConfig profile none] ++ (k.trace ++ d.trace ++ _)) = _
    rw [launchCalls_append, launchCalls_append, launchCalls_append, hkt, hdt]
    rfl
  · intro inst rest id hreply hid
    rw [hrun, hreply]
    simp [launchResult, hid]
  · decide

theorem createEC2_launches_once_witness :
    (createEC2 (simEnv noFaults) "go-iam" freshWorld).result = .ok "i-0123456789abcdef0" ∧
      launchCalls (createEC2 (simEnv noFaults) "go-iam" freshWorld).trace =
        [{ ImageId := some "ami-00000001", KeyName := some "go-aws-demo",
           InstanceType := "t2.micro", MinCount := some 1, MaxCount := some 1 }] :=
  ⟨(createEC2_launches_once (simEnv noFaults) "go-iam" freshWorld
      (createKeyPair (simEnv noFaults) "go-aws-demo" freshWorld)
      (describeImages (simEnv noFaults)
        (createKeyPair (simEnv noFaults) "go-aws-demo" freshWorld).state)
      "go-aws-demo" "ami-00000001" (by decide) rfl (by decide) rfl (by decide)).2.2.1
      { InstanceId := some "i-0123456789abcdef0" } [] "i-0123456789abcdef0"
      (by decide) rfl,
   (createEC2_launches_once (simEnv noFaults) "go-iam" freshWorld
      (createKeyPair (simEnv noFaults) "go-aws-demo" freshWorld)
      (describeImages (simEnv noFaults)
        (createKeyPair (simEnv noFaults) "go-aws-demo" freshWorld).state)
      "go-aws-demo" "ami-00000001" (by decide) rfl (by decide) rfl (by decide)).2.1⟩

/-- C10: the code at the failing input.  A run whose key-pair lookup
(`DescribeKeyPairs`) is refused returns an error under the context text
`CreateKeyPair error: `, although the run ends with the failed lookup and
issues no `CreateKeyPair` request; a run whose `CreateKeyPair` request is
refused returns its error under the same context text.  Every other error of
the script is labelled with the call that failed, as the key-file write is
here. -/
theorem lookup_failure_labelled_as_creation :
    (createEC2 (simEnv lookupRefused) "go-iam" freshWorld).result =
        .err ("CreateKeyPair error: " ++
          ("operation error EC2: DescribeKeyPairs, https response error " ++
            "StatusCode: 403, api error UnauthorizedOperation: You are not authorized to " ++
            "perform this operation.")) ∧
      (createEC2 (simEnv lookupRefused) "go-iam" freshWorld).trace =
        [Event.loadConfig "go-iam" none,
         Event.describeKeyPairs { KeyNames := ["go-aws-demo"] }
           (.fail ("operation error EC2: DescribeKeyPairs, https response error " ++
             "StatusCode: 403, api error UnauthorizedOperation: You are not authorized to " ++
             "perform this operation."))] ∧
      createCalls (createEC2 (simEnv lookupRefused) "go-iam" freshWorld).trace = [] ∧
      (createEC2 (simEnv createRefused) "go-iam" freshWorld).result =
        .err ("CreateKeyPair error: " ++
          ("operation error EC2: CreateKeyPair, https response error " ++
            "StatusCode: 403, api error UnauthorizedOperation: You are not authorized to " ++
            "perform this operation.")) ∧
      createCalls (createEC2 (simEnv createRefused) "go-iam" freshWorld).trace =
        [{ KeyName := some "go-aws-demo" }] ∧
      (createEC2 (simEnv diskFull) "go-iam" freshWorld).result =
        .err ("WriteFile error: " ++ "open go-aws-ec2.pem: no space left on device") := by
  exact ⟨rfl, rfl, rfl, rfl, rfl, rfl⟩

end Theorems

end GoAwsEc2
